import Mathlib

/-!
Verification of the color module of PhloxAR (src/PhloxAR/color.py).

The Python numerics are modelled over ℚ (exact rational arithmetic in place
of IEEE floats):
* Python `int(x)` is `pytrunc` (truncation toward zero);
* Python float `x % 1.0` is `pymod1` (`x - ⌊x⌋`, sign of the divisor);
* Python 3 `round(x)` is `pyround` (round half to even);
* a Python `ZeroDivisionError` is modelled by an `Option` result (`none`).

The module calls `colorsys.rgb_to_hsv` / `colorsys.hsv_to_rgb` from the
Python standard library; those two functions are translated here verbatim
from the CPython sources, since the behavior of `color.py` depends on them.
The scipy `UnivariateSpline` used by `ColorCurve` is external fitted-curve
code and is abstracted as an arbitrary function `ℚ → ℚ` (any function a
spline evaluation could realize).
-/

set_option maxHeartbeats 1000000

/-- Python `int()` applied to a rational: truncation toward zero. -/
def pytrunc (q : ℚ) : ℤ :=
  if 0 ≤ q then ⌊q⌋ else ⌈q⌉

/-- Python float modulo one: `x % 1.0` returns a value with the sign of the
divisor, hence equals `x - ⌊x⌋`. -/
def pymod1 (q : ℚ) : ℚ := q - ⌊q⌋

/-- Python 3 `round()` to an integer: round half to even. -/
def pyround (q : ℚ) : ℤ :=
  if q - ⌊q⌋ < 1/2 then ⌊q⌋
  else if 1/2 < q - ⌊q⌋ then ⌊q⌋ + 1
  else if ⌊q⌋ % 2 = 0 then ⌊q⌋ else ⌊q⌋ + 1

/-- `colorsys.rgb_to_hsv` from the CPython standard library, translated over
ℚ.  `color.py` passes raw 0–255 components to it (no normalization). -/
def rgb_to_hsv (r g b : ℚ) : ℚ × ℚ × ℚ :=
  let maxc := max r (max g b)
  let minc := min r (min g b)
  let v := maxc
  if minc = maxc then (0, 0, v)
  else
    let s := (maxc - minc) / maxc
    let rc := (maxc - r) / (maxc - minc)
    let gc := (maxc - g) / (maxc - minc)
    let bc := (maxc - b) / (maxc - minc)
    let h := if r = maxc then bc - gc
             else if g = maxc then 2 + rc - bc
             else 4 + gc - rc
    (pymod1 (h / 6), s, v)

/-- `colorsys.hsv_to_rgb` from the CPython standard library, translated over
ℚ. -/
def hsv_to_rgb (h s v : ℚ) : ℚ × ℚ × ℚ :=
  if s = 0 then (v, v, v)
  else
    let i0 := pytrunc (h * 6)
    let f := h * 6 - (i0 : ℚ)
    let p := v * (1 - s)
    let q := v * (1 - s * f)
    let t := v * (1 - s * (1 - f))
    let i := i0 % 6
    if i = 0 then (v, t, p)
    else if i = 1 then (q, v, p)
    else if i = 2 then (p, v, t)
    else if i = 3 then (p, q, v)
    else if i = 4 then (t, p, v)
    else (v, p, q)

namespace Color

def BLACK : ℤ × ℤ × ℤ := (0, 0, 0)

def WHITE : ℤ × ℤ × ℤ := (255, 255, 255)

def BLUE : ℤ × ℤ × ℤ := (0, 0, 255)

def YELLOW : ℤ × ℤ × ℤ := (255, 255, 0)

def RED : ℤ × ℤ × ℤ := (255, 0, 0)

def VIOLET : ℤ × ℤ × ℤ := (181, 126, 220)

def ORANGE : ℤ × ℤ × ℤ := (255, 165, 0)

def GREEN : ℤ × ℤ × ℤ := (0, 128, 0)

def GRAY : ℤ × ℤ × ℤ := (128, 128, 128)

def IVORY : ℤ × ℤ × ℤ := (255, 255, 240)

def BEIGE : ℤ × ℤ × ℤ := (245, 245, 220)

def WHEAT : ℤ × ℤ × ℤ := (245, 222, 179)

def TAN : ℤ × ℤ × ℤ := (210, 180, 140)

def KHAKI : ℤ × ℤ × ℤ := (195, 176, 145)

def SILVER : ℤ × ℤ × ℤ := (192, 192, 192)

def CHARCOAL : ℤ × ℤ × ℤ := (70, 70, 70)

def NAVYBLUE : ℤ × ℤ × ℤ := (0, 0, 128)

def ROYALBLUE : ℤ × ℤ × ℤ := (8, 76, 158)

def MEDIUMBLUE : ℤ × ℤ × ℤ := (0, 0, 205)

def AZURE : ℤ × ℤ × ℤ := (0, 127, 255)

def CYAN : ℤ × ℤ × ℤ := (0, 255, 255)

def AQUAMARINE : ℤ × ℤ × ℤ := (127, 255, 212)

def TEAL : ℤ × ℤ × ℤ := (0, 128, 128)

def FORESTGREEN : ℤ × ℤ × ℤ := (34, 139, 34)

def OLIVE : ℤ × ℤ × ℤ := (128, 128, 0)

def LIME : ℤ × ℤ × ℤ := (191, 255, 0)

def GOLD : ℤ × ℤ × ℤ := (255, 215, 0)

def SALMON : ℤ × ℤ × ℤ := (250, 128, 114)

def HOTPINK : ℤ × ℤ × ℤ := (252, 15, 192)

def FUCHSIA : ℤ × ℤ × ℤ := (255, 119, 255)

def PUCE : ℤ × ℤ × ℤ := (204, 136, 153)

def PLUM : ℤ × ℤ × ℤ := (132, 49, 121)

def INDIGO : ℤ × ℤ × ℤ := (75, 0, 130)

def MAROON : ℤ × ℤ × ℤ := (128, 0, 0)

def CRIMSON : ℤ × ℤ × ℤ := (220, 20, 60)

def DEFAULT : ℤ × ℤ × ℤ := (0, 0, 0)

/-- the class-level list `Color.colors`, in source order. -/
def colors : List (ℤ × ℤ × ℤ) :=
  [BLACK, WHITE, BLUE, YELLOW, RED, VIOLET, ORANGE, GREEN, GRAY, IVORY,
   BEIGE, WHEAT, TAN, KHAKI, SILVER, CHARCOAL, NAVYBLUE, ROYALBLUE,
   MEDIUMBLUE, AZURE, CYAN, AQUAMARINE, TEAL, FORESTGREEN, OLIVE, LIME,
   GOLD, SALMON, HOTPINK, FUCHSIA, PUCE, PLUM, INDIGO, MAROON, CRIMSON,
   DEFAULT]

/-- `Color.random`: the source draws `r = random.randint(1, len(colors)-1)`
(both bounds inclusive) and returns `colors[r]`; the drawn index is made an
explicit parameter here. -/
def random (r : ℕ) : ℤ × ℤ × ℤ := colors.getD r (0, 0, 0)

/-- `Color.rgb2hsv`: `hsv = colorsys.rgb_to_hsv(*color)` on the raw integer
components, then `(hsv[0]*180, hsv[1]*255, hsv[2])`. -/
def rgb2hsv (c : ℤ × ℤ × ℤ) : ℚ × ℚ × ℚ :=
  let hsv := rgb_to_hsv (c.1 : ℚ) (c.2.1 : ℚ) (c.2.2 : ℚ)
  (hsv.1 * 180, hsv.2.1 * 255, hsv.2.2)

/-- `Color.hue`: `colorsys.rgb_to_hsv(*color)[0] * 180`. -/
def hue (c : ℤ × ℤ × ℤ) : ℚ :=
  (rgb_to_hsv (c.1 : ℚ) (c.2.1 : ℚ) (c.2.2 : ℚ)).1 * 180

/-- `Color.hue2rgb`: divides the hue by 180, converts with
`colorsys.hsv_to_rgb(hue, 1, 1)` and rounds each channel of `255 * channel`. -/
def hue2rgb (hu : ℚ) : ℤ × ℤ × ℤ :=
  let h := hu / 180
  let c := hsv_to_rgb h 1 1
  (pyround (255 * c.1), pyround (255 * c.2.1), pyround (255 * c.2.2))

/-- `Color.average`: `int((c[0] + c[1] + c[2]) / 3)` with true division. -/
def average (c : ℤ × ℤ × ℤ) : ℤ :=
  pytrunc (((c.1 : ℚ) + (c.2.1 : ℚ) + (c.2.2 : ℚ)) / 3)

/-- `Color.lightness`: `int((max(rgb) + min(rgb)) / 2)` with true division. -/
def lightness (c : ℤ × ℤ × ℤ) : ℤ :=
  pytrunc ((max (c.1 : ℚ) (max (c.2.1 : ℚ) (c.2.2 : ℚ)) +
            min (c.1 : ℚ) (min (c.2.1 : ℚ) (c.2.2 : ℚ))) / 2)

/-- `Color.luminosity`: `int(0.21*r + 0.71*g + 0.07*b)`. -/
def luminosity (c : ℤ × ℤ × ℤ) : ℤ :=
  pytrunc ((21/100 : ℚ) * (c.1 : ℚ) + (71/100 : ℚ) * (c.2.1 : ℚ) +
           (7/100 : ℚ) * (c.2.2 : ℚ))

end Color

/-- `ColorCurve`: its only data is the 256-entry sampled curve. -/
structure ColorCurve where
  curve : List ℚ

/-- `np.linspace(0, 255, 256)`: the 256 evenly spaced samples are exactly the
integers 0, 1, …, 255. -/
def linspace256 : List ℚ := List.map (fun i : ℕ => (i : ℚ)) (List.range 256)

/-- `ColorCurve.__init__`, branch taken when `vals` is a pre-built
`UnivariateSpline`: `self.curve = vals(interval)` — the spline is sampled
directly, with no clamping.  The spline object is abstracted as the function
it evaluates. -/
def colorCurve_ofSpline (spline : ℚ → ℚ) : ColorCurve :=
  ⟨List.map spline linspace256⟩

/-- `ColorCurve.__init__`, branch taken for a sequence of control points:
`spline = UnivariateSpline(x, y, s=1)` (the scipy fit, abstracted as the
function `fit vals`), then
`self.curve = np.maximum(np.minimum(spline(interval), 255), 0)`. -/
def colorCurve_ofPoints (fit : List (ℚ × ℚ) → ℚ → ℚ) (vals : List (ℚ × ℚ)) :
    ColorCurve :=
  ⟨List.map (fun x => max (min (fit vals x) 255) 0) linspace256⟩

/-- `ColorMap` instance state after `__init__`. -/
structure ColorMap where
  color : List (ℤ × ℤ × ℤ)
  start_map : ℚ
  end_map : ℚ
  value_range : ℚ
  color_distance : ℚ

/-- `ColorMap.__init__` for a sequence of colors (the `ndim != 1` case). -/
def mkColorMap (color : List (ℤ × ℤ × ℤ)) (start_map end_map : ℚ) : ColorMap :=
  { color := color
    start_map := start_map
    end_map := end_map
    value_range := end_map - start_map
    color_distance := (end_map - start_map) / ((color.length : ℚ) - 1) }

/-- `ColorMap.__init__` when a single color is passed (`ndim == 1`): the color
is paired with `Color.WHITE`. -/
def mkColorMapSingle (c : ℤ × ℤ × ℤ) (start_map end_map : ℚ) : ColorMap :=
  mkColorMap [c, Color.WHITE] start_map end_map

/-- the clamping of the looked-up value at the head of `__getitem__`. -/
def ColorMap.clamp (m : ColorMap) (v : ℚ) : ℚ :=
  if v > m.end_map then m.end_map
  else if v < m.start_map then m.start_map
  else v

/-- body of `__getitem__` after clamping.  `none` models the
`ZeroDivisionError` raised by `(val - self.start_map) / self.color_distance`
when `color_distance` is zero. -/
def ColorMap.interp (m : ColorMap) (val : ℚ) : Option (ℤ × ℤ × ℤ) :=
  if m.color_distance = 0 then none
  else
    let value := (val - m.start_map) / m.color_distance
    let alpha := value - (pytrunc value : ℚ)
    let index := pytrunc value
    if index = (m.color.length : ℤ) - 1 then
      some (m.color.getD index.toNat (0, 0, 0))
    else
      let c1 := m.color.getD index.toNat (0, 0, 0)
      let c2 := m.color.getD (index.toNat + 1) (0, 0, 0)
      some (pytrunc ((c1.1 : ℚ) * (1 - alpha) + (c2.1 : ℚ) * alpha),
            pytrunc ((c1.2.1 : ℚ) * (1 - alpha) + (c2.2.1 : ℚ) * alpha),
            pytrunc ((c1.2.2 : ℚ) * (1 - alpha) + (c2.2.2 : ℚ) * alpha))

/-- `ColorMap.__getitem__`. -/
def ColorMap.getitem (m : ColorMap) (v : ℚ) : Option (ℤ × ℤ × ℤ) :=
  m.interp (m.clamp v)

/-- Modelled from the spec: the interpolation formula that the specification
asserts for in-range lookups — fractional position
`value = (v - start_map) / color_distance`, `i = int(value)`,
`alpha = value - i`, channel-wise blend `color[i]*(1-alpha) +
color[i+1]*alpha`, each channel truncated to an integer. -/
def colorMapSpecLookup (colors : List (ℤ × ℤ × ℤ)) (start_map end_map v : ℚ) :
    ℤ × ℤ × ℤ :=
  let cd := (end_map - start_map) / ((colors.length : ℚ) - 1)
  let value := (v - start_map) / cd
  let alpha := value - (pytrunc value : ℚ)
  let index := pytrunc value
  let c1 := colors.getD index.toNat (0, 0, 0)
  let c2 := colors.getD (index.toNat + 1) (0, 0, 0)
  (pytrunc ((c1.1 : ℚ) * (1 - alpha) + (c2.1 : ℚ) * alpha),
   pytrunc ((c1.2.1 : ℚ) * (1 - alpha) + (c2.2.1 : ℚ) * alpha),
   pytrunc ((c1.2.2 : ℚ) * (1 - alpha) + (c2.2.2 : ℚ) * alpha))

/-! ### Helper lemmas about the Python numeric primitives -/

lemma pytrunc_intCast (n : ℤ) : pytrunc (n : ℚ) = n := by
  unfold pytrunc
  split
  · exact Int.floor_intCast n
  · exact Int.ceil_intCast n

lemma pytrunc_zero : pytrunc 0 = 0 := by
  simpa using pytrunc_intCast 0

lemma pytrunc_of_nonneg {q : ℚ} (h : 0 ≤ q) : pytrunc q = ⌊q⌋ := by
  unfold pytrunc
  exact if_pos h

lemma pytrunc_eq {q : ℚ} (n : ℤ) (h0 : 0 ≤ q) (h1 : (n : ℚ) ≤ q)
    (h2 : q < (n : ℚ) + 1) : pytrunc q = n := by
  rw [pytrunc_of_nonneg h0]
  exact Int.floor_eq_iff.mpr ⟨h1, by exact_mod_cast h2⟩

lemma pytrunc_mem {q : ℚ} (h0 : 0 ≤ q) (h1 : q < 256) :
    0 ≤ pytrunc q ∧ pytrunc q ≤ 255 := by
  rw [pytrunc_of_nonneg h0]
  constructor
  · exact Int.floor_nonneg.mpr h0
  · have hlt : ⌊q⌋ < 256 := Int.floor_lt.mpr (by exact_mod_cast h1)
    omega

lemma pymod1_nonneg (q : ℚ) : 0 ≤ pymod1 q := by
  unfold pymod1
  have := Int.floor_le q
  linarith

lemma pymod1_lt_one (q : ℚ) : pymod1 q < 1 := by
  unfold pymod1
  have := Int.lt_floor_add_one q
  linarith

lemma pyround_intCast (n : ℤ) : pyround (n : ℚ) = n := by
  unfold pyround
  rw [Int.floor_intCast]
  norm_num

lemma abs_pyround_sub (q : ℚ) : |(pyround q : ℚ) - q| ≤ 1/2 := by
  have hfl := Int.floor_le q
  have hfu := Int.lt_floor_add_one q
  unfold pyround
  split_ifs with h1 h2 h3 <;>
    · rw [abs_le]
      push_cast
      constructor <;> linarith

lemma pyround_bounds (y : ℚ) (h0 : 0 ≤ y) (h1 : y ≤ 255) :
    0 ≤ pyround y ∧ pyround y ≤ 255 ∧ |(pyround y : ℚ) - y| ≤ 1/2 := by
  have hab := abs_pyround_sub y
  rw [abs_le] at hab
  have hlow : (-1 : ℚ) < (pyround y : ℚ) := by linarith [hab.1]
  have hhigh : (pyround y : ℚ) < 256 := by linarith [hab.2]
  have hlow2 : (-1 : ℤ) < pyround y := by exact_mod_cast hlow
  have hhigh2 : pyround y < (256 : ℤ) := by exact_mod_cast hhigh
  exact ⟨by omega, by omega, abs_pyround_sub y⟩


lemma pymod1_eq_self {q : ℚ} (h0 : 0 ≤ q) (h1 : q < 1) : pymod1 q = q := by
  unfold pymod1
  rw [Int.floor_eq_zero_iff.mpr (Set.mem_Ico.mpr ⟨h0, h1⟩)]
  push_cast
  ring

lemma rgb_to_hsv_e0 (m : ℚ) (h0 : 0 ≤ m) (h1 : m ≤ 255) :
    rgb_to_hsv 255 m 0 = (m / 1530, 1, 255) := by
  have hmax : max (255 : ℚ) (max m 0) = 255 := max_eq_left (max_le h1 (by norm_num))
  have hmin : min (255 : ℚ) (min m 0) = 0 := by
    rw [min_eq_right h0]
    exact min_eq_right (by norm_num)
  unfold rgb_to_hsv
  simp only [hmax, hmin, if_true]
  have harg : (((255 : ℚ) - 0) / (255 - 0) - (255 - m) / (255 - 0)) / 6 = m / 1530 := by
    rw [div_eq_div_iff (by norm_num) (by norm_num)]
    ring
  rw [harg, pymod1_eq_self (div_nonneg h0 (by norm_num))
    ((div_lt_one (by norm_num)).mpr (by linarith))]
  norm_num

lemma pymod1_eq_add_one {q : ℚ} (h0 : -1 ≤ q) (h1 : q < 0) : pymod1 q = q + 1 := by
  unfold pymod1
  have hfl : ⌊q⌋ = -1 := by
    rw [Int.floor_eq_iff]
    constructor
    · exact_mod_cast h0
    · push_cast
      linarith
  rw [hfl]
  push_cast
  ring

lemma rgb_to_hsv_e1 (m : ℚ) (h0 : 0 ≤ m) (h1 : m ≤ 255) :
    rgb_to_hsv m 255 0 = ((510 - m) / 1530, 1, 255) := by
  by_cases hm : m = 255
  · subst hm
    rw [rgb_to_hsv_e0 255 (by norm_num) (by norm_num)]
    norm_num
  · have hmax : max m (max (255 : ℚ) 0) = 255 := by
      rw [max_eq_left (by norm_num : (0 : ℚ) ≤ 255)]
      exact max_eq_right h1
    have hmin : min m (min (255 : ℚ) 0) = 0 := by
      rw [min_eq_right (by norm_num : (0 : ℚ) ≤ 255)]
      exact min_eq_right h0
    unfold rgb_to_hsv
    simp only [hmax, hmin, if_true]
    rw [if_neg hm]
    have harg : ((2 : ℚ) + (255 - m) / (255 - 0) - (255 - 0) / (255 - 0)) / 6 =
        (510 - m) / 1530 := by
      rw [div_eq_div_iff (by norm_num) (by norm_num)]
      ring
    rw [harg, pymod1_eq_self (div_nonneg (by linarith) (by norm_num))
      ((div_lt_one (by norm_num)).mpr (by linarith))]
    norm_num

lemma rgb_to_hsv_e2 (m : ℚ) (h0 : 0 ≤ m) (h1 : m ≤ 255) :
    rgb_to_hsv 0 255 m = ((510 + m) / 1530, 1, 255) := by
  have hmax : max (0 : ℚ) (max 255 m) = 255 := by
    rw [max_eq_left h1]
    exact max_eq_right (by norm_num)
  have hmin : min (0 : ℚ) (min 255 m) = 0 := by
    rw [min_eq_right h1]
    exact min_eq_left h0
  unfold rgb_to_hsv
  simp only [hmax, hmin, if_true]
  rw [if_neg (show ¬(0 : ℚ) = 255 by norm_num),
    if_neg (show ¬(0 : ℚ) = 255 by norm_num)]
  have harg : ((2 : ℚ) + (255 - 0) / (255 - 0) - (255 - m) / (255 - 0)) / 6 =
      (510 + m) / 1530 := by
    rw [div_eq_div_iff (by norm_num) (by norm_num)]
    ring
  rw [harg, pymod1_eq_self (div_nonneg (by linarith) (by norm_num))
    ((div_lt_one (by norm_num)).mpr (by linarith))]
  norm_num

lemma rgb_to_hsv_e3 (m : ℚ) (h0 : 0 ≤ m) (h1 : m ≤ 255) :
    rgb_to_hsv 0 m 255 = ((1020 - m) / 1530, 1, 255) := by
  by_cases hm : m = 255
  · subst hm
    rw [rgb_to_hsv_e2 255 (by norm_num) (by norm_num)]
    norm_num
  · have hmax : max (0 : ℚ) (max m 255) = 255 := by
      rw [max_eq_right h1]
      exact max_eq_right (by norm_num)
    have hmin : min (0 : ℚ) (min m 255) = 0 := by
      rw [min_eq_left h1]
      exact min_eq_left h0
    unfold rgb_to_hsv
    simp only [hmax, hmin, if_true]
    rw [if_neg hm, if_neg (show ¬(0 : ℚ) = 255 by norm_num),
      if_neg (show ¬(0 : ℚ) = 255 by norm_num)]
    have harg : ((4 : ℚ) + (255 - m) / (255 - 0) - (255 - 0) / (255 - 0)) / 6 =
        (1020 - m) / 1530 := by
      rw [div_eq_div_iff (by norm_num) (by norm_num)]
      ring
    rw [harg, pymod1_eq_self (div_nonneg (by linarith) (by norm_num))
      ((div_lt_one (by norm_num)).mpr (by linarith))]
    norm_num

lemma rgb_to_hsv_e4 (m : ℚ) (h0 : 0 ≤ m) (h1 : m ≤ 255) :
    rgb_to_hsv m 0 255 = ((1020 + m) / 1530, 1, 255) := by
  by_cases hm : m = 255
  · subst hm
    have hmax : max (255 : ℚ) (max 0 255) = 255 := by
      rw [max_eq_right (by norm_num : (0 : ℚ) ≤ 255)]
      exact max_eq_left (by norm_num)
    have hmin : min (255 : ℚ) (min 0 255) = 0 := by
      rw [min_eq_left (by norm_num : (0 : ℚ) ≤ 255)]
      exact min_eq_right (by norm_num)
    unfold rgb_to_hsv
    simp only [hmax, hmin, if_true]
    rw [if_neg (show ¬(0 : ℚ) = 255 by norm_num)]
    have harg : (((255 : ℚ) - 255) / (255 - 0) - (255 - 0) / (255 - 0)) / 6 =
        -1 / 6 := by
      rw [div_eq_div_iff (by norm_num) (by norm_num)]
      ring
    rw [harg, pymod1_eq_add_one (by norm_num) (by norm_num)]
    norm_num
  · have hmax : max m (max (0 : ℚ) 255) = 255 := by
      rw [max_eq_right (by norm_num : (0 : ℚ) ≤ 255)]
      exact max_eq_right h1
    have hmin : min m (min (0 : ℚ) 255) = 0 := by
      rw [min_eq_left (by norm_num : (0 : ℚ) ≤ 255)]
      exact min_eq_right h0
    unfold rgb_to_hsv
    simp only [hmax, hmin, if_true]
    rw [if_neg (show ¬(0 : ℚ) = 255 by norm_num), if_neg hm,
      if_neg (show ¬(0 : ℚ) = 255 by norm_num)]
    have harg : ((4 : ℚ) + (255 - 0) / (255 - 0) - (255 - m) / (255 - 0)) / 6 =
        (1020 + m) / 1530 := by
      rw [div_eq_div_iff (by norm_num) (by norm_num)]
      ring
    rw [harg, pymod1_eq_self (div_nonneg (by linarith) (by norm_num))
      ((div_lt_one (by norm_num)).mpr (by linarith))]
    norm_num

lemma rgb_to_hsv_e5 (m : ℚ) (h0 : 1 ≤ m) (h1 : m ≤ 255) :
    rgb_to_hsv 255 0 m = ((1530 - m) / 1530, 1, 255) := by
  have hmax : max (255 : ℚ) (max 0 m) = 255 := by
    rw [max_eq_right (by linarith : (0 : ℚ) ≤ m)]
    exact max_eq_left h1
  have hmin : min (255 : ℚ) (min 0 m) = 0 := by
    rw [min_eq_left (by linarith : (0 : ℚ) ≤ m)]
    exact min_eq_right (by norm_num)
  unfold rgb_to_hsv
  simp only [hmax, hmin, if_true]
  rw [if_neg (show ¬(0 : ℚ) = 255 by norm_num)]
  have harg : (((255 : ℚ) - m) / (255 - 0) - (255 - 0) / (255 - 0)) / 6 =
      -m / 1530 := by
    rw [div_eq_div_iff (by norm_num) (by norm_num)]
    ring
  have hb0 : (-1 : ℚ) ≤ -m / 1530 := by
    rw [le_div_iff₀ (by norm_num : (0 : ℚ) < 1530)]
    linarith
  have hb1 : -m / 1530 < 0 := div_neg_of_neg_of_pos (by linarith) (by norm_num)
  rw [harg, pymod1_eq_add_one hb0 hb1]
  simp only [Prod.mk.injEq]
  refine ⟨by ring, by norm_num, by norm_num⟩

lemma hue_eq_fst (c : ℤ × ℤ × ℤ) : Color.hue c = (Color.rgb2hsv c).1 := rfl

lemma rgb2hsv_E0 (m : ℤ) (h0 : 0 ≤ m) (h1 : m ≤ 255) :
    Color.rgb2hsv (255, m, 0) = (2 * (m : ℚ) / 17, 255, 255) := by
  unfold Color.rgb2hsv
  push_cast
  rw [rgb_to_hsv_e0 (m : ℚ) (by exact_mod_cast h0) (by exact_mod_cast h1)]
  simp only [Prod.mk.injEq]
  refine ⟨by ring, by norm_num, by norm_num⟩

lemma rgb2hsv_E1 (m : ℤ) (h0 : 0 ≤ m) (h1 : m ≤ 255) :
    Color.rgb2hsv (m, 255, 0) = (60 - 2 * (m : ℚ) / 17, 255, 255) := by
  unfold Color.rgb2hsv
  push_cast
  rw [rgb_to_hsv_e1 (m : ℚ) (by exact_mod_cast h0) (by exact_mod_cast h1)]
  simp only [Prod.mk.injEq]
  refine ⟨by ring, by norm_num, by norm_num⟩

lemma rgb2hsv_E2 (m : ℤ) (h0 : 0 ≤ m) (h1 : m ≤ 255) :
    Color.rgb2hsv (0, 255, m) = (60 + 2 * (m : ℚ) / 17, 255, 255) := by
  unfold Color.rgb2hsv
  push_cast
  rw [rgb_to_hsv_e2 (m : ℚ) (by exact_mod_cast h0) (by exact_mod_cast h1)]
  simp only [Prod.mk.injEq]
  refine ⟨by ring, by norm_num, by norm_num⟩

lemma rgb2hsv_E3 (m : ℤ) (h0 : 0 ≤ m) (h1 : m ≤ 255) :
    Color.rgb2hsv (0, m, 255) = (120 - 2 * (m : ℚ) / 17, 255, 255) := by
  unfold Color.rgb2hsv
  push_cast
  rw [rgb_to_hsv_e3 (m : ℚ) (by exact_mod_cast h0) (by exact_mod_cast h1)]
  simp only [Prod.mk.injEq]
  refine ⟨by ring, by norm_num, by norm_num⟩

lemma rgb2hsv_E4 (m : ℤ) (h0 : 0 ≤ m) (h1 : m ≤ 255) :
    Color.rgb2hsv (m, 0, 255) = (120 + 2 * (m : ℚ) / 17, 255, 255) := by
  unfold Color.rgb2hsv
  push_cast
  rw [rgb_to_hsv_e4 (m : ℚ) (by exact_mod_cast h0) (by exact_mod_cast h1)]
  simp only [Prod.mk.injEq]
  refine ⟨by ring, by norm_num, by norm_num⟩

lemma rgb2hsv_E5 (m : ℤ) (h0 : 1 ≤ m) (h1 : m ≤ 255) :
    Color.rgb2hsv (255, 0, m) = (180 - 2 * (m : ℚ) / 17, 255, 255) := by
  unfold Color.rgb2hsv
  push_cast
  rw [rgb_to_hsv_e5 (m : ℚ) (by exact_mod_cast h0) (by exact_mod_cast h1)]
  simp only [Prod.mk.injEq]
  refine ⟨by ring, by norm_num, by norm_num⟩

lemma pyround_255mul1 : pyround ((255 : ℚ) * 1) = 255 := by
  rw [show (255 : ℚ) * 1 = ((255 : ℤ) : ℚ) by norm_num, pyround_intCast]

lemma pyround_255mul0 : pyround ((255 : ℚ) * 0) = 0 := by
  rw [show (255 : ℚ) * 0 = ((0 : ℤ) : ℚ) by norm_num, pyround_intCast]

lemma hsv_case0 (H : ℚ) (h0 : 0 ≤ H) (h1 : H < 30) :
    hsv_to_rgb (H / 180) 1 1 = (1, H / 30, 0) := by
  have hi0 : pytrunc (H / 180 * 6) = 0 := by
    rw [pytrunc_of_nonneg (mul_nonneg (div_nonneg h0 (by norm_num)) (by norm_num))]
    exact Int.floor_eq_zero_iff.mpr (Set.mem_Ico.mpr
      ⟨mul_nonneg (div_nonneg h0 (by norm_num)) (by norm_num), by linarith⟩)
  unfold hsv_to_rgb
  rw [if_neg (show ¬(1 : ℚ) = 0 by norm_num)]
  simp only [hi0]
  norm_num [Prod.mk.injEq]
  ring

lemma hsv_case1 (H : ℚ) (h0 : 30 ≤ H) (h1 : H < 60) :
    hsv_to_rgb (H / 180) 1 1 = (2 - H / 30, 1, 0) := by
  have hi0 : pytrunc (H / 180 * 6) = 1 := by
    rw [pytrunc_of_nonneg (by positivity), Int.floor_eq_iff]
    constructor <;> push_cast <;> linarith
  unfold hsv_to_rgb
  rw [if_neg (show ¬(1 : ℚ) = 0 by norm_num)]
  simp only [hi0]
  norm_num [Prod.mk.injEq]
  ring

lemma hsv_case2 (H : ℚ) (h0 : 60 ≤ H) (h1 : H < 90) :
    hsv_to_rgb (H / 180) 1 1 = (0, 1, H / 30 - 2) := by
  have hi0 : pytrunc (H / 180 * 6) = 2 := by
    rw [pytrunc_of_nonneg (by positivity), Int.floor_eq_iff]
    constructor <;> push_cast <;> linarith
  unfold hsv_to_rgb
  rw [if_neg (show ¬(1 : ℚ) = 0 by norm_num)]
  simp only [hi0]
  norm_num [Prod.mk.injEq]
  ring

lemma hsv_case3 (H : ℚ) (h0 : 90 ≤ H) (h1 : H < 120) :
    hsv_to_rgb (H / 180) 1 1 = (0, 4 - H / 30, 1) := by
  have hi0 : pytrunc (H / 180 * 6) = 3 := by
    rw [pytrunc_of_nonneg (by positivity), Int.floor_eq_iff]
    constructor <;> push_cast <;> linarith
  unfold hsv_to_rgb
  rw [if_neg (show ¬(1 : ℚ) = 0 by norm_num)]
  simp only [hi0]
  norm_num [Prod.mk.injEq]
  ring

lemma hsv_case4 (H : ℚ) (h0 : 120 ≤ H) (h1 : H < 150) :
    hsv_to_rgb (H / 180) 1 1 = (H / 30 - 4, 0, 1) := by
  have hi0 : pytrunc (H / 180 * 6) = 4 := by
    rw [pytrunc_of_nonneg (by positivity), Int.floor_eq_iff]
    constructor <;> push_cast <;> linarith
  unfold hsv_to_rgb
  rw [if_neg (show ¬(1 : ℚ) = 0 by norm_num)]
  simp only [hi0]
  norm_num [Prod.mk.injEq]
  ring

lemma hsv_case5 (H : ℚ) (h0 : 150 ≤ H) (h1 : H < 180) :
    hsv_to_rgb (H / 180) 1 1 = (1, 0, 6 - H / 30) := by
  have hi0 : pytrunc (H / 180 * 6) = 5 := by
    rw [pytrunc_of_nonneg (by positivity), Int.floor_eq_iff]
    constructor <;> push_cast <;> linarith
  unfold hsv_to_rgb
  rw [if_neg (show ¬(1 : ℚ) = 0 by norm_num)]
  simp only [hi0]
  norm_num [Prod.mk.injEq]
  ring

lemma hue2rgb_eval0 (H : ℚ) (h0 : 0 ≤ H) (h1 : H < 30) :
    Color.hue2rgb H = (255, pyround (255 * (H / 30)), 0) := by
  simp only [Color.hue2rgb]
  rw [hsv_case0 H h0 h1]
  show (pyround (255 * 1), pyround (255 * (H / 30)), pyround (255 * 0)) = _
  rw [pyround_255mul1, pyround_255mul0]

lemma hue2rgb_eval1 (H : ℚ) (h0 : 30 ≤ H) (h1 : H < 60) :
    Color.hue2rgb H = (pyround (255 * (2 - H / 30)), 255, 0) := by
  simp only [Color.hue2rgb]
  rw [hsv_case1 H h0 h1]
  show (pyround (255 * (2 - H / 30)), pyround (255 * 1), pyround (255 * 0)) = _
  rw [pyround_255mul1, pyround_255mul0]

lemma hue2rgb_eval2 (H : ℚ) (h0 : 60 ≤ H) (h1 : H < 90) :
    Color.hue2rgb H = (0, 255, pyround (255 * (H / 30 - 2))) := by
  simp only [Color.hue2rgb]
  rw [hsv_case2 H h0 h1]
  show (pyround (255 * 0), pyround (255 * 1), pyround (255 * (H / 30 - 2))) = _
  rw [pyround_255mul1, pyround_255mul0]

lemma hue2rgb_eval3 (H : ℚ) (h0 : 90 ≤ H) (h1 : H < 120) :
    Color.hue2rgb H = (0, pyround (255 * (4 - H / 30)), 255) := by
  simp only [Color.hue2rgb]
  rw [hsv_case3 H h0 h1]
  show (pyround (255 * 0), pyround (255 * (4 - H / 30)), pyround (255 * 1)) = _
  rw [pyround_255mul1, pyround_255mul0]

lemma hue2rgb_eval4 (H : ℚ) (h0 : 120 ≤ H) (h1 : H < 150) :
    Color.hue2rgb H = (pyround (255 * (H / 30 - 4)), 0, 255) := by
  simp only [Color.hue2rgb]
  rw [hsv_case4 H h0 h1]
  show (pyround (255 * (H / 30 - 4)), pyround (255 * 0), pyround (255 * 1)) = _
  rw [pyround_255mul1, pyround_255mul0]

lemma hue2rgb_eval5 (H : ℚ) (h0 : 150 ≤ H) (h1 : H < 180) :
    Color.hue2rgb H = (255, 0, pyround (255 * (6 - H / 30))) := by
  simp only [Color.hue2rgb]
  rw [hsv_case5 H h0 h1]
  show (pyround (255 * 1), pyround (255 * 0), pyround (255 * (6 - H / 30))) = _
  rw [pyround_255mul1, pyround_255mul0]

lemma rgb_to_hsv_fst_mem (r g b : ℚ) :
    0 ≤ (rgb_to_hsv r g b).1 ∧ (rgb_to_hsv r g b).1 < 1 := by
  simp only [rgb_to_hsv]
  split_ifs with h
  all_goals first
  | exact ⟨pymod1_nonneg _, pymod1_lt_one _⟩
  | norm_num

lemma hue_mem (c : ℤ × ℤ × ℤ) : 0 ≤ Color.hue c ∧ Color.hue c < 180 := by
  obtain ⟨ha, hb⟩ := rgb_to_hsv_fst_mem (c.1 : ℚ) (c.2.1 : ℚ) (c.2.2 : ℚ)
  unfold Color.hue
  exact ⟨mul_nonneg ha (by norm_num), by linarith⟩

lemma hue_roundtrip (H : ℚ) (h0 : 0 ≤ H) (h180 : H < 180) :
    (Color.rgb2hsv (Color.hue2rgb H)).2.1 = 255 ∧
    (Color.rgb2hsv (Color.hue2rgb H)).2.2 = 255 ∧
    (|Color.hue (Color.hue2rgb H) - H| ≤ 1/17 ∨
     180 - |Color.hue (Color.hue2rgb H) - H| ≤ 1/17) := by
  rcases lt_or_le H 30 with hc | hc
  · rw [hue2rgb_eval0 H h0 hc, hue_eq_fst]
    obtain ⟨hm0, hm1, hmb⟩ := pyround_bounds (255 * (H / 30))
      (mul_nonneg (by norm_num) (div_nonneg h0 (by norm_num))) (by linarith)
    rw [rgb2hsv_E0 _ hm0 hm1]
    refine ⟨rfl, rfl, Or.inl ?_⟩
    show |2 * ((pyround (255 * (H / 30)) : ℤ) : ℚ) / 17 - H| ≤ 1/17
    have key : 2 * ((pyround (255 * (H / 30)) : ℤ) : ℚ) / 17 - H =
        (2/17) * (((pyround (255 * (H / 30)) : ℤ) : ℚ) - 255 * (H / 30)) := by
      ring
    rw [key, abs_mul, abs_of_nonneg (show (0 : ℚ) ≤ 2/17 by norm_num)]
    linarith [hmb]
  rcases lt_or_le H 60 with hc2 | hc2
  · rw [hue2rgb_eval1 H hc hc2, hue_eq_fst]
    obtain ⟨hm0, hm1, hmb⟩ := pyround_bounds (255 * (2 - H / 30))
      (by nlinarith) (by nlinarith)
    rw [rgb2hsv_E1 _ hm0 hm1]
    refine ⟨rfl, rfl, Or.inl ?_⟩
    show |60 - 2 * ((pyround (255 * (2 - H / 30)) : ℤ) : ℚ) / 17 - H| ≤ 1/17
    have key : 60 - 2 * ((pyround (255 * (2 - H / 30)) : ℤ) : ℚ) / 17 - H =
        (2/17) * (255 * (2 - H / 30) - ((pyround (255 * (2 - H / 30)) : ℤ) : ℚ)) := by
      ring
    rw [abs_sub_comm] at hmb
    rw [key, abs_mul, abs_of_nonneg (show (0 : ℚ) ≤ 2/17 by norm_num)]
    linarith [hmb]
  rcases lt_or_le H 90 with hc3 | hc3
  · rw [hue2rgb_eval2 H hc2 hc3, hue_eq_fst]
    obtain ⟨hm0, hm1, hmb⟩ := pyround_bounds (255 * (H / 30 - 2))
      (by nlinarith) (by nlinarith)
    rw [rgb2hsv_E2 _ hm0 hm1]
    refine ⟨rfl, rfl, Or.inl ?_⟩
    show |60 + 2 * ((pyround (255 * (H / 30 - 2)) : ℤ) : ℚ) / 17 - H| ≤ 1/17
    have key : 60 + 2 * ((pyround (255 * (H / 30 - 2)) : ℤ) : ℚ) / 17 - H =
        (2/17) * (((pyround (255 * (H / 30 - 2)) : ℤ) : ℚ) - 255 * (H / 30 - 2)) := by
      ring
    rw [key, abs_mul, abs_of_nonneg (show (0 : ℚ) ≤ 2/17 by norm_num)]
    linarith [hmb]
  rcases lt_or_le H 120 with hc4 | hc4
  · rw [hue2rgb_eval3 H hc3 hc4, hue_eq_fst]
    obtain ⟨hm0, hm1, hmb⟩ := pyround_bounds (255 * (4 - H / 30))
      (by nlinarith) (by nlinarith)
    rw [rgb2hsv_E3 _ hm0 hm1]
    refine ⟨rfl, rfl, Or.inl ?_⟩
    show |120 - 2 * ((pyround (255 * (4 - H / 30)) : ℤ) : ℚ) / 17 - H| ≤ 1/17
    have key : 120 - 2 * ((pyround (255 * (4 - H / 30)) : ℤ) : ℚ) / 17 - H =
        (2/17) * (255 * (4 - H / 30) - ((pyround (255 * (4 - H / 30)) : ℤ) : ℚ)) := by
      ring
    rw [abs_sub_comm] at hmb
    rw [key, abs_mul, abs_of_nonneg (show (0 : ℚ) ≤ 2/17 by norm_num)]
    linarith [hmb]
  rcases lt_or_le H 150 with hc5 | hc5
  · rw [hue2rgb_eval4 H hc4 hc5, hue_eq_fst]
    obtain ⟨hm0, hm1, hmb⟩ := pyround_bounds (255 * (H / 30 - 4))
      (by nlinarith) (by nlinarith)
    rw [rgb2hsv_E4 _ hm0 hm1]
    refine ⟨rfl, rfl, Or.inl ?_⟩
    show |120 + 2 * ((pyround (255 * (H / 30 - 4)) : ℤ) : ℚ) / 17 - H| ≤ 1/17
    have key : 120 + 2 * ((pyround (255 * (H / 30 - 4)) : ℤ) : ℚ) / 17 - H =
        (2/17) * (((pyround (255 * (H / 30 - 4)) : ℤ) : ℚ) - 255 * (H / 30 - 4)) := by
      ring
    rw [key, abs_mul, abs_of_nonneg (show (0 : ℚ) ≤ 2/17 by norm_num)]
    linarith [hmb]
  · rw [hue2rgb_eval5 H hc5 h180, hue_eq_fst]
    obtain ⟨hm0, hm1, hmb⟩ := pyround_bounds (255 * (6 - H / 30))
      (by nlinarith) (by nlinarith)
    rcases eq_or_lt_of_le hm0 with hz | hpos
    · rw [← hz]
      rw [rgb2hsv_E0 0 (by norm_num) (by norm_num)]
      refine ⟨rfl, rfl, Or.inr ?_⟩
      show 180 - |2 * ((0 : ℤ) : ℚ) / 17 - H| ≤ 1/17
      have habs : |2 * ((0 : ℤ) : ℚ) / 17 - H| = H := by
        push_cast
        rw [show (2 : ℚ) * 0 / 17 - H = -H by ring, abs_neg, abs_of_nonneg h0]
      rw [habs]
      rw [← hz] at hmb
      have hy : 255 * (6 - H / 30) ≤ 1/2 := by
        have := (abs_le.mp hmb).1
        push_cast at this
        linarith
      linarith
    · have hm1' : 1 ≤ pyround (255 * (6 - H / 30)) := hpos
      rw [rgb2hsv_E5 _ hm1' hm1]
      refine ⟨rfl, rfl, Or.inl ?_⟩
      show |180 - 2 * ((pyround (255 * (6 - H / 30)) : ℤ) : ℚ) / 17 - H| ≤ 1/17
      have key : 180 - 2 * ((pyround (255 * (6 - H / 30)) : ℤ) : ℚ) / 17 - H =
          (2/17) * (255 * (6 - H / 30) - ((pyround (255 * (6 - H / 30)) : ℤ) : ℚ)) := by
        ring
      rw [abs_sub_comm] at hmb
      rw [key, abs_mul, abs_of_nonneg (show (0 : ℚ) ≤ 2/17 by norm_num)]
      linarith [hmb]

/-! ### ColorMap structure lemmas -/

lemma mk_color (colors : List (ℤ × ℤ × ℤ)) (sm em : ℚ) :
    (mkColorMap colors sm em).color = colors := rfl

lemma mk_start (colors : List (ℤ × ℤ × ℤ)) (sm em : ℚ) :
    (mkColorMap colors sm em).start_map = sm := rfl

lemma mk_end (colors : List (ℤ × ℤ × ℤ)) (sm em : ℚ) :
    (mkColorMap colors sm em).end_map = em := rfl

lemma mk_range (colors : List (ℤ × ℤ × ℤ)) (sm em : ℚ) :
    (mkColorMap colors sm em).value_range = em - sm := rfl

lemma mk_dist (colors : List (ℤ × ℤ × ℤ)) (sm em : ℚ) :
    (mkColorMap colors sm em).color_distance =
      (em - sm) / ((colors.length : ℚ) - 1) := rfl

/-- C6: constructing a `ColorMap` with `start_map == end_map` is unguarded
(`__init__` succeeds and stores `color_distance = 0`), and every lookup
`__getitem__` then hits the division `(val - start_map) / color_distance`
with a zero divisor, raising `ZeroDivisionError` (modelled as `none`) instead
of returning a color. -/
theorem colorMap_degenerate_division_by_zero
    (colors : List (ℤ × ℤ × ℤ)) (sm v : ℚ) :
    (mkColorMap colors sm sm).color_distance = 0 ∧
    (mkColorMap colors sm sm).getitem v = none := by
  have hd : (mkColorMap colors sm sm).color_distance = 0 := by
    rw [mk_dist, sub_self, zero_div]
  refine ⟨hd, ?_⟩
  unfold ColorMap.getitem ColorMap.interp
  rw [if_pos hd]

/-- C5 counterexample: for the map built from two colors with
`start_map = 100 > 0 = end_map` (so `start_map ≠ end_map`), the stored
`color_distance` is `-100`, not positive — the claim that `color_distance > 0`
whenever `start_map ≠ end_map` is false. -/
theorem colorMap_distance_sign_counterexample :
    (100 : ℚ) ≠ 0 ∧
    (mkColorMap [(0, 0, 0), (255, 255, 255)] 100 0).color_distance = -100 ∧
    ¬ 0 < (mkColorMap [(0, 0, 0), (255, 255, 255)] 100 0).color_distance := by
  have hd : (mkColorMap [((0 : ℤ), (0 : ℤ), (0 : ℤ)), (255, 255, 255)]
      100 0).color_distance = -100 := by
    rw [mk_dist]
    norm_num
  exact ⟨by norm_num, hd, by rw [hd]; norm_num⟩

/-- C5 amended: for a map over at least two colors with
`start_map ≠ end_map`, `color_distance` is nonzero — positive exactly when
`start_map < end_map` and negative when `start_map > end_map` (the code keeps
the sign of `end_map - start_map`; there is no absolute value) — the stored
color sequence is kept unchanged, and `color_distance * (count - 1)` equals
the full `value_range`, i.e. the range splits into `count - 1` segments. -/
theorem colorMap_distance_amended (colors : List (ℤ × ℤ × ℤ)) (sm em : ℚ)
    (hlen : 2 ≤ colors.length) (hne : sm ≠ em) :
    (mkColorMap colors sm em).color_distance ≠ 0 ∧
    (sm < em → 0 < (mkColorMap colors sm em).color_distance) ∧
    (em < sm → (mkColorMap colors sm em).color_distance < 0) ∧
    (mkColorMap colors sm em).color_distance * ((colors.length : ℚ) - 1) =
      (mkColorMap colors sm em).value_range ∧
    (mkColorMap colors sm em).color.length = colors.length := by
  have hL : (0 : ℚ) < (colors.length : ℚ) - 1 := by
    have h2 : (2 : ℚ) ≤ (colors.length : ℚ) := by exact_mod_cast hlen
    linarith
  refine ⟨?_, ?_, ?_, ?_, rfl⟩
  · rw [mk_dist]
    exact div_ne_zero (sub_ne_zero.mpr (Ne.symm hne)) (ne_of_gt hL)
  · intro h
    rw [mk_dist]
    exact div_pos (by linarith) hL
  · intro h
    rw [mk_dist]
    exact div_neg_of_neg_of_pos (by linarith) hL
  · rw [mk_dist, mk_range]
    exact div_mul_cancel₀ _ (ne_of_gt hL)

/-- witness for the amended C5 at the concrete two-color map over [0, 100]. -/
theorem colorMap_distance_amended_witness :
    (mkColorMap [(0, 0, 0), (255, 255, 255)] 0 100).color_distance ≠ 0 ∧
    0 < (mkColorMap [(0, 0, 0), (255, 255, 255)] 0 100).color_distance := by
  have h := colorMap_distance_amended [(0, 0, 0), (255, 255, 255)] 0 100
    (by norm_num) (by norm_num)
  exact ⟨h.1, h.2.1 (by norm_num)⟩

/-- C2: for a map with at least two colors, `start_map < end_map`, and a
lookup value inside the range whose computed index lies strictly before the
last color, `__getitem__` returns exactly the interpolation formula the
specification states: `value = (v - start_map) / color_distance`,
`i = int(value)`, `alpha = value - i`, and channel-wise
`int(color[i]*(1-alpha) + color[i+1]*alpha)`. -/
theorem colorMap_getitem_interior (colors : List (ℤ × ℤ × ℤ)) (sm em v : ℚ)
    (hlen : 2 ≤ colors.length) (hse : sm < em) (hv1 : sm ≤ v) (hv2 : v ≤ em)
    (hin : pytrunc ((v - sm) / (mkColorMap colors sm em).color_distance) <
      (colors.length : ℤ) - 1) :
    (mkColorMap colors sm em).getitem v =
      some (colorMapSpecLookup colors sm em v) := by
  have hL : (0 : ℚ) < (colors.length : ℚ) - 1 := by
    have h2 : (2 : ℚ) ≤ (colors.length : ℚ) := by exact_mod_cast hlen
    linarith
  have hdpos : 0 < (em - sm) / ((colors.length : ℚ) - 1) :=
    div_pos (by linarith) hL
  rw [mk_dist] at hin
  simp only [ColorMap.getitem, ColorMap.clamp, ColorMap.interp, mk_color,
    mk_start, mk_end, mk_dist, colorMapSpecLookup]
  rw [if_neg (not_lt.mpr hv2), if_neg (not_lt.mpr hv1),
    if_neg (ne_of_gt hdpos), if_neg (ne_of_lt hin)]

/-- witness for C2: the two-color black-to-white map over [0, 100] looked up
at the midpoint 50 yields (127, 127, 127). -/
theorem colorMap_getitem_interior_witness :
    (mkColorMap [(0, 0, 0), (255, 255, 255)] 0 100).getitem 50 =
      some (127, 127, 127) := by
  have hd : (mkColorMap [((0 : ℤ), (0 : ℤ), (0 : ℤ)), (255, 255, 255)]
      0 100).color_distance = 100 := by
    rw [mk_dist]
    norm_num
  have hhalf : ((50 : ℚ) - 0) / 100 = 1/2 := by norm_num
  have hpt : pytrunc ((1 : ℚ)/2) = 0 :=
    pytrunc_eq 0 (by norm_num) (by norm_num) (by norm_num)
  have hin : pytrunc (((50 : ℚ) - 0) /
      (mkColorMap [((0 : ℤ), (0 : ℤ), (0 : ℤ)), (255, 255, 255)]
        0 100).color_distance) <
      (List.length [((0 : ℤ), (0 : ℤ), (0 : ℤ)), (255, 255, 255)] : ℤ) - 1 := by
    rw [hd, hhalf, hpt]
    norm_num
  have h := colorMap_getitem_interior [(0, 0, 0), (255, 255, 255)] 0 100 50
    (by norm_num) (by norm_num) (by norm_num) (by norm_num) hin
  rw [h]
  simp only [colorMapSpecLookup]
  norm_num
  rw [hpt]
  norm_num
  exact pytrunc_eq 127 (by norm_num) (by norm_num) (by norm_num)

/-- C3: for a map with at least two colors and `start_map < end_map`, lookup
at exactly `start_map` returns the first color, lookup at exactly `end_map`
returns the last color verbatim through the dedicated last-index branch, and
lookups below `start_map` / above `end_map` clamp, returning the same result
as the lookup at the corresponding bound. -/
theorem colorMap_getitem_boundary (colors : List (ℤ × ℤ × ℤ)) (sm em v : ℚ)
    (hlen : 2 ≤ colors.length) (hse : sm < em) :
    (mkColorMap colors sm em).getitem sm = some (colors.getD 0 (0, 0, 0)) ∧
    (mkColorMap colors sm em).getitem em =
      some (colors.getD (colors.length - 1) (0, 0, 0)) ∧
    (v < sm → (mkColorMap colors sm em).getitem v =
      (mkColorMap colors sm em).getitem sm) ∧
    (em < v → (mkColorMap colors sm em).getitem v =
      (mkColorMap colors sm em).getitem em) := by
  have hL : (0 : ℚ) < (colors.length : ℚ) - 1 := by
    have h2 : (2 : ℚ) ≤ (colors.length : ℚ) := by exact_mod_cast hlen
    linarith
  have hdpos : 0 < (em - sm) / ((colors.length : ℚ) - 1) :=
    div_pos (by linarith) hL
  have hclamp_sm : (mkColorMap colors sm em).clamp sm = sm := by
    simp only [ColorMap.clamp, mk_start, mk_end]
    rw [if_neg (not_lt.mpr hse.le), if_neg (lt_irrefl sm)]
  have hclamp_em : (mkColorMap colors sm em).clamp em = em := by
    simp only [ColorMap.clamp, mk_start, mk_end]
    rw [if_neg (lt_irrefl em), if_neg (not_lt.mpr hse.le)]
  refine ⟨?_, ?_, ?_, ?_⟩
  · unfold ColorMap.getitem
    rw [hclamp_sm]
    simp only [ColorMap.interp, mk_color, mk_start, mk_dist]
    rw [if_neg (ne_of_gt hdpos), sub_self, zero_div, pytrunc_zero]
    rw [if_neg (show ¬(0 : ℤ) = (colors.length : ℤ) - 1 by omega)]
    norm_num [pytrunc_intCast]
  · unfold ColorMap.getitem
    rw [hclamp_em]
    simp only [ColorMap.interp, mk_color, mk_start, mk_dist]
    rw [if_neg (ne_of_gt hdpos)]
    have hval : (em - sm) / ((em - sm) / ((colors.length : ℚ) - 1)) =
        (colors.length : ℚ) - 1 := by
      rw [div_div_eq_mul_div, mul_comm, mul_div_assoc,
        div_self (sub_ne_zero.mpr (ne_of_gt hse)), mul_one]
    rw [hval]
    have hcast : ((colors.length : ℚ) - 1) =
        (((colors.length : ℤ) - 1 : ℤ) : ℚ) := by
      push_cast
      ring
    rw [hcast, pytrunc_intCast, if_pos rfl]
    have ht : ((colors.length : ℤ) - 1).toNat = colors.length - 1 := by omega
    rw [ht]
  · intro hv
    unfold ColorMap.getitem
    rw [hclamp_sm]
    have hcv : (mkColorMap colors sm em).clamp v = sm := by
      simp only [ColorMap.clamp, mk_start, mk_end]
      rw [if_neg (not_lt.mpr (le_of_lt (lt_trans hv hse))), if_pos hv]
    rw [hcv]
  · intro hv
    unfold ColorMap.getitem
    rw [hclamp_em]
    have hcv : (mkColorMap colors sm em).clamp v = em := by
      simp only [ColorMap.clamp, mk_start, mk_end]
      rw [if_pos hv]
    rw [hcv]

/-- witness for C3 on the concrete two-color map from (1,2,3) to (40,50,60)
over [0, 100]: lookups at 0, 100 and at the out-of-range values -5 and 200. -/
theorem colorMap_getitem_boundary_witness :
    (mkColorMap [(1, 2, 3), (40, 50, 60)] 0 100).getitem 0 = some (1, 2, 3) ∧
    (mkColorMap [(1, 2, 3), (40, 50, 60)] 0 100).getitem 100 =
      some (40, 50, 60) ∧
    (mkColorMap [(1, 2, 3), (40, 50, 60)] 0 100).getitem (-5) =
      (mkColorMap [(1, 2, 3), (40, 50, 60)] 0 100).getitem 0 ∧
    (mkColorMap [(1, 2, 3), (40, 50, 60)] 0 100).getitem 200 =
      (mkColorMap [(1, 2, 3), (40, 50, 60)] 0 100).getitem 100 := by
  have h5 := colorMap_getitem_boundary [(1, 2, 3), (40, 50, 60)] 0 100 (-5)
    (by norm_num) (by norm_num)
  have h200 := colorMap_getitem_boundary [(1, 2, 3), (40, 50, 60)] 0 100 200
    (by norm_num) (by norm_num)
  refine ⟨?_, ?_, h5.2.2.1 (by norm_num), h200.2.2.2 (by norm_num)⟩
  · rw [h5.1]
    decide
  · rw [h5.2.1]
    decide

/-- C1 counterexample: the pre-built-spline branch of `ColorCurve.__init__`
samples the spline directly without clamping, so for the constant spline
returning 300 (a valid `UnivariateSpline`, e.g. one fitted to constant-300
data) the curve has 256 entries but entries outside [0, 255] — the claim that
every entry lies in [0, 255] for every valid construction input is false. -/
theorem colorCurve_spline_unclamped_counterexample :
    (colorCurve_ofSpline (fun _ => 300)).curve.length = 256 ∧
    ¬ (∀ q ∈ (colorCurve_ofSpline (fun _ => 300)).curve, 0 ≤ q ∧ q ≤ 255) := by
  constructor
  · show (List.map _ linspace256).length = 256
    rw [List.length_map]
    unfold linspace256
    rw [List.length_map, List.length_range]
  · intro hall
    have h0 : (0 : ℚ) ∈ linspace256 := by
      unfold linspace256
      exact List.mem_map.mpr ⟨0, List.mem_range.mpr (by norm_num), by norm_num⟩
    have h300 : (300 : ℚ) ∈ (colorCurve_ofSpline (fun _ => 300)).curve :=
      List.mem_map.mpr ⟨0, h0, rfl⟩
    exact absurd (hall 300 h300).2 (by norm_num)

/-- C1 amended: both branches of `ColorCurve.__init__` produce exactly 256
entries; the control-points branch clamps every entry into [0, 255] (for any
fitted spline), but the pre-built-spline branch samples the spline directly
and does not clamp. -/
theorem colorCurve_entries_amended (spline : ℚ → ℚ)
    (fit : List (ℚ × ℚ) → ℚ → ℚ) (vals : List (ℚ × ℚ)) :
    (colorCurve_ofSpline spline).curve.length = 256 ∧
    (colorCurve_ofPoints fit vals).curve.length = 256 ∧
    ∀ q ∈ (colorCurve_ofPoints fit vals).curve, 0 ≤ q ∧ q ≤ 255 := by
  refine ⟨?_, ?_, ?_⟩
  · show (List.map _ linspace256).length = 256
    rw [List.length_map]
    unfold linspace256
    rw [List.length_map, List.length_range]
  · show (List.map _ linspace256).length = 256
    rw [List.length_map]
    unfold linspace256
    rw [List.length_map, List.length_range]
  intro q hq
  obtain ⟨x, -, rfl⟩ := List.mem_map.mp hq
  constructor
  · exact le_max_right _ _
  · exact max_le (min_le_right _ _) (by norm_num)

/-- C4: `Color.rgb2hsv` applies the canonical colorsys RGB-to-HSV transform
to the raw 0–255 integer components, without prior normalization, and scales
the result as `(h*180, s*255, v)` with the value channel left unscaled; in
particular pure red maps to `(0, 255, 255)` (the unnormalized value 255, not
1). -/
theorem color_rgb2hsv_raw_transform (r g b : ℤ)
    (hr1 : 0 ≤ r) (hr2 : r ≤ 255) (hg1 : 0 ≤ g) (hg2 : g ≤ 255)
    (hb1 : 0 ≤ b) (hb2 : b ≤ 255) :
    Color.rgb2hsv (r, g, b) =
      ((rgb_to_hsv (r : ℚ) (g : ℚ) (b : ℚ)).1 * 180,
       (rgb_to_hsv (r : ℚ) (g : ℚ) (b : ℚ)).2.1 * 255,
       (rgb_to_hsv (r : ℚ) (g : ℚ) (b : ℚ)).2.2) ∧
    Color.rgb2hsv (255, 0, 0) = (0, 255, 255) := by
  constructor
  · rfl
  · rw [rgb2hsv_E0 0 (by norm_num) (by norm_num)]
    norm_num

/-- witness for C4 at pure red. -/
theorem color_rgb2hsv_raw_transform_witness :
    (0 ≤ (255 : ℤ) ∧ (255 : ℤ) ≤ 255 ∧ 0 ≤ (0 : ℤ) ∧ (0 : ℤ) ≤ 255) ∧
    Color.rgb2hsv (255, 0, 0) =
      ((rgb_to_hsv ((255 : ℤ) : ℚ) ((0 : ℤ) : ℚ) ((0 : ℤ) : ℚ)).1 * 180,
       (rgb_to_hsv ((255 : ℤ) : ℚ) ((0 : ℤ) : ℚ) ((0 : ℤ) : ℚ)).2.1 * 255,
       (rgb_to_hsv ((255 : ℤ) : ℚ) ((0 : ℤ) : ℚ) ((0 : ℤ) : ℚ)).2.2) ∧
    Color.rgb2hsv (255, 0, 0) = (0, 255, 255) :=
  ⟨⟨by norm_num, by norm_num, by norm_num, by norm_num⟩,
   (color_rgb2hsv_raw_transform 255 0 0 (by norm_num) (by norm_num)
     (by norm_num) (by norm_num) (by norm_num) (by norm_num)).1,
   (color_rgb2hsv_raw_transform 255 0 0 (by norm_num) (by norm_num)
     (by norm_num) (by norm_num) (by norm_num) (by norm_num)).2⟩

/-- C7: for every index the random draw can produce (1 ≤ r ≤ len-1, both
bounds inclusive as in `random.randint`), `Color.random` returns a member of
the fixed list `Color.colors`, taken at an index other than 0 — the entry
BLACK at index 0 is never selected. -/
theorem color_random_in_palette (r : ℕ) (h1 : 1 ≤ r)
    (h2 : r ≤ Color.colors.length - 1) :
    Color.random r ∈ Color.colors ∧
    ∃ i : ℕ, i ≠ 0 ∧ i < Color.colors.length ∧
      Color.random r = Color.colors.getD i (0, 0, 0) := by
  have hlen : Color.colors.length = 36 := rfl
  have hr : r < Color.colors.length := by omega
  constructor
  · unfold Color.random
    rw [List.getD_eq_getElem Color.colors (0, 0, 0) hr]
    exact List.getElem_mem _
  · exact ⟨r, by omega, hr, rfl⟩

/-- witness for C7 at the draw index 1 (which yields WHITE). -/
theorem color_random_in_palette_witness :
    (1 ≤ 1 ∧ 1 ≤ Color.colors.length - 1) ∧
    (Color.random 1 ∈ Color.colors ∧
     ∃ i : ℕ, i ≠ 0 ∧ i < Color.colors.length ∧
       Color.random 1 = Color.colors.getD i (0, 0, 0)) :=
  ⟨⟨le_refl 1, by decide⟩,
   color_random_in_palette 1 (le_refl 1) (by decide)⟩

/-- C8: although index 0 is excluded from the draw, the value (0,0,0) is
still reachable: `Color.DEFAULT = (0,0,0)` sits at the last index 35 of the
36-entry list `Color.colors`, that index lies inside the sampled range
[1, len-1], and the draw at 35 returns the black triple. -/
theorem color_random_returns_black :
    Color.colors.length = 36 ∧
    Color.DEFAULT = (0, 0, 0) ∧
    Color.colors.getD 35 (1, 1, 1) = (0, 0, 0) ∧
    1 ≤ 35 ∧ 35 ≤ Color.colors.length - 1 ∧
    Color.random 35 = (0, 0, 0) := by
  refine ⟨rfl, rfl, by decide, by norm_num, by decide, by decide⟩

/-- C9: for every RGB triple with integer components in [0, 255], applying
`Color.hue` and then `Color.hue2rgb` yields a color whose `rgb2hsv` has
saturation 255 and value 255 (fully saturated, full value), and whose hue
agrees with the hue of the original color up to the error introduced by
rounding the channels to the nearest integer — at most 1/17 of a hue degree,
measured circularly (hue 180 wraps to 0). -/
theorem color_hue_roundtrip (r g b : ℤ)
    (hr1 : 0 ≤ r) (hr2 : r ≤ 255) (hg1 : 0 ≤ g) (hg2 : g ≤ 255)
    (hb1 : 0 ≤ b) (hb2 : b ≤ 255) :
    (Color.rgb2hsv (Color.hue2rgb (Color.hue (r, g, b)))).2.1 = 255 ∧
    (Color.rgb2hsv (Color.hue2rgb (Color.hue (r, g, b)))).2.2 = 255 ∧
    (|Color.hue (Color.hue2rgb (Color.hue (r, g, b))) - Color.hue (r, g, b)| ≤
        1/17 ∨
     180 - |Color.hue (Color.hue2rgb (Color.hue (r, g, b))) -
        Color.hue (r, g, b)| ≤ 1/17) := by
  obtain ⟨ha, hlt⟩ := hue_mem (r, g, b)
  exact hue_roundtrip (Color.hue (r, g, b)) ha hlt

/-- witness for C9 at the concrete color (10, 200, 30). -/
theorem color_hue_roundtrip_witness :
    ((0 : ℤ) ≤ 10 ∧ (10 : ℤ) ≤ 255 ∧ (0 : ℤ) ≤ 200 ∧ (200 : ℤ) ≤ 255 ∧
      (0 : ℤ) ≤ 30 ∧ (30 : ℤ) ≤ 255) ∧
    ((Color.rgb2hsv (Color.hue2rgb (Color.hue (10, 200, 30)))).2.1 = 255 ∧
     (Color.rgb2hsv (Color.hue2rgb (Color.hue (10, 200, 30)))).2.2 = 255 ∧
     (|Color.hue (Color.hue2rgb (Color.hue (10, 200, 30))) -
         Color.hue (10, 200, 30)| ≤ 1/17 ∨
      180 - |Color.hue (Color.hue2rgb (Color.hue (10, 200, 30))) -
         Color.hue (10, 200, 30)| ≤ 1/17)) :=
  ⟨⟨by norm_num, by norm_num, by norm_num, by norm_num, by norm_num,
    by norm_num⟩,
   color_hue_roundtrip 10 200 30 (by norm_num) (by norm_num) (by norm_num)
     (by norm_num) (by norm_num) (by norm_num)⟩

/-- C10: for every triple of integers in [0, 255], `Color.lightness`,
`Color.luminosity` and `Color.average` each return an integer in [0, 255];
moreover `luminosity (255,0,0) = 53` and `lightness (10,200,30) = 105`. -/
theorem color_grayscale_bounds (r g b : ℤ)
    (hr1 : 0 ≤ r) (hr2 : r ≤ 255) (hg1 : 0 ≤ g) (hg2 : g ≤ 255)
    (hb1 : 0 ≤ b) (hb2 : b ≤ 255) :
    (0 ≤ Color.average (r, g, b) ∧ Color.average (r, g, b) ≤ 255) ∧
    (0 ≤ Color.lightness (r, g, b) ∧ Color.lightness (r, g, b) ≤ 255) ∧
    (0 ≤ Color.luminosity (r, g, b) ∧ Color.luminosity (r, g, b) ≤ 255) ∧
    Color.luminosity (255, 0, 0) = 53 ∧
    Color.lightness (10, 200, 30) = 105 := by
  have hr1' : (0 : ℚ) ≤ (r : ℚ) := by exact_mod_cast hr1
  have hr2' : (r : ℚ) ≤ 255 := by exact_mod_cast hr2
  have hg1' : (0 : ℚ) ≤ (g : ℚ) := by exact_mod_cast hg1
  have hg2' : (g : ℚ) ≤ 255 := by exact_mod_cast hg2
  have hb1' : (0 : ℚ) ≤ (b : ℚ) := by exact_mod_cast hb1
  have hb2' : (b : ℚ) ≤ 255 := by exact_mod_cast hb2
  refine ⟨?_, ?_, ?_, ?_, ?_⟩
  · exact pytrunc_mem (by positivity) (by rw [div_lt_iff₀ (by norm_num)]; linarith)
  · have hmax1 : max (r : ℚ) (max (g : ℚ) (b : ℚ)) ≤ 255 :=
      max_le hr2' (max_le hg2' hb2')
    have hmax0 : (0 : ℚ) ≤ max (r : ℚ) (max (g : ℚ) (b : ℚ)) :=
      le_trans hr1' (le_max_left _ _)
    have hmin0 : (0 : ℚ) ≤ min (r : ℚ) (min (g : ℚ) (b : ℚ)) :=
      le_min hr1' (le_min hg1' hb1')
    have hmin1 : min (r : ℚ) (min (g : ℚ) (b : ℚ)) ≤ 255 :=
      le_trans (min_le_left _ _) hr2'
    exact pytrunc_mem (by positivity)
      (by rw [div_lt_iff₀ (by norm_num)]; linarith)
  · refine pytrunc_mem ?_ ?_
    · have := mul_nonneg (show (0:ℚ) ≤ 21/100 by norm_num) hr1'
      have := mul_nonneg (show (0:ℚ) ≤ 71/100 by norm_num) hg1'
      have := mul_nonneg (show (0:ℚ) ≤ 7/100 by norm_num) hb1'
      linarith
    · nlinarith
  · unfold Color.luminosity
    norm_num
    exact pytrunc_eq 53 (by norm_num) (by norm_num) (by norm_num)
  · unfold Color.lightness
    have hm1 : max ((10 : ℤ) : ℚ) (max ((200 : ℤ) : ℚ) ((30 : ℤ) : ℚ)) = 200 := by
      push_cast
      rw [max_eq_left (by norm_num : (30 : ℚ) ≤ 200)]
      exact max_eq_right (by norm_num)
    have hm2 : min ((10 : ℤ) : ℚ) (min ((200 : ℤ) : ℚ) ((30 : ℤ) : ℚ)) = 10 := by
      push_cast
      rw [min_eq_right (by norm_num : (30 : ℚ) ≤ 200)]
      exact min_eq_left (by norm_num)
    show pytrunc ((max ((10 : ℤ) : ℚ) (max ((200 : ℤ) : ℚ) ((30 : ℤ) : ℚ)) +
      min ((10 : ℤ) : ℚ) (min ((200 : ℤ) : ℚ) ((30 : ℤ) : ℚ))) / 2) = 105
    rw [hm1, hm2]
    norm_num
    exact pytrunc_eq 105 (by norm_num) (by norm_num) (by norm_num)

/-- witness for C10 at the concrete color (10, 200, 30). -/
theorem color_grayscale_bounds_witness :
    ((0 : ℤ) ≤ 10 ∧ (10 : ℤ) ≤ 255) ∧
    (0 ≤ Color.average (10, 200, 30) ∧ Color.average (10, 200, 30) ≤ 255) ∧
    (0 ≤ Color.lightness (10, 200, 30) ∧
      Color.lightness (10, 200, 30) ≤ 255) ∧
    (0 ≤ Color.luminosity (10, 200, 30) ∧
      Color.luminosity (10, 200, 30) ≤ 255) ∧
    Color.luminosity (255, 0, 0) = 53 ∧
    Color.lightness (10, 200, 30) = 105 :=
  ⟨⟨by norm_num, by norm_num⟩,
   color_grayscale_bounds 10 200 30 (by norm_num) (by norm_num) (by norm_num)
     (by norm_num) (by norm_num) (by norm_num)⟩
